import Mathlib

/-!
Verification of the gateway's BLE adapter (DBusHciInterface) and the
virtual device manager (VirtualDeviceManager) against their
natural-language specification.

Timestamps are modelled as natural numbers (microseconds on a monotonic
clock); Poco's `Timestamp::elapsed()` becomes truncated subtraction
`now - lastSeen`.  Device maps (`std::map` keyed by MAC address or
DeviceID) are modelled as association lists; a MAC address is a `Nat`
(48 bits, only compared for equality).
-/

namespace Gateway

/-- Generic association-list lookup, modelling `std::map::find`. -/
def lookupA {α : Type} (m : List (Nat × α)) (k : Nat) : Option α :=
  match m with
  | [] => none
  | p :: rest => if p.1 = k then some p.2 else lookupA rest k

/-- A record of `DBusHciInterface`'s BLE device map (`DBusHciInterface::Device`
plus the bookkeeping the map stores for it).  `watchSub` is the pair of the
`g_signal_connect` handle and the callback installed by `watch`; the record is
watched when it is present (`Device::isWatched`). -/
structure BleDevice where
  mac : Nat
  name : String
  rssi : Int
  lastSeen : Nat
  watchSub : Option (Nat × Nat)
deriving DecidableEq

/-- `Device::isWatched`: a record is watched when a manufacturer-data
subscription is installed. -/
def BleDevice.isWatched (d : BleDevice) : Bool :=
  d.watchSub.isSome

/-- The adapter's device map `m_devices.second`: MAC address to device record. -/
abbrev DeviceMap := List (Nat × BleDevice)

/-- `RSSI_DEVICE_UNAVAILABLE = 0` from the source. -/
def RSSI_DEVICE_UNAVAILABLE : Int := 0

/-- The snapshot loop of `DBusHciInterface::lescan`: a record is copied into
`foundDevices` unless its last-seen timestamp is older than `leMaxAgeRssi`
(`lastSeen().elapsed() > m_leMaxAgeRssi`) or its RSSI equals
`RSSI_DEVICE_UNAVAILABLE`. -/
def lescan (now maxAgeRssi : Nat) (m : DeviceMap) : List (Nat × String) :=
  (m.filter (fun p =>
      decide (now - p.2.lastSeen ≤ maxAgeRssi) &&
      !(decide (p.2.rssi = RSSI_DEVICE_UNAVAILABLE)))).map
    (fun p => (p.1, p.2.name))

/-- C1: for every record of the BLE device map, `lescan`'s result contains the
record's MAC iff the record's last RSSI update is no older than
`leMaxAgeRssi` and its current RSSI is not 0. -/
theorem lescan_visibility (now maxAgeRssi : Nat) (m : DeviceMap)
    (hnodup : (m.map Prod.fst).Nodup) :
    ∀ p ∈ m,
      (p.1 ∈ (lescan now maxAgeRssi m).map Prod.fst ↔
        (now - p.2.lastSeen ≤ maxAgeRssi ∧ p.2.rssi ≠ RSSI_DEVICE_UNAVAILABLE)) := by
  intro p hp
  constructor
  · intro hmem
    simp only [lescan, List.map_map, List.mem_map, Function.comp,
      List.mem_filter, Bool.and_eq_true, Bool.not_eq_true',
      decide_eq_true_eq, decide_eq_false_iff_not] at hmem
    obtain ⟨q, ⟨⟨hq, hage, hrssi⟩, hkey⟩⟩ := hmem
    have hqp : q = p := List.inj_on_of_nodup_map hnodup hq hp hkey
    subst hqp
    exact ⟨hage, hrssi⟩
  · intro ⟨hage, hrssi⟩
    simp only [lescan, List.map_map, List.mem_map, Function.comp,
      List.mem_filter, Bool.and_eq_true, Bool.not_eq_true',
      decide_eq_true_eq, decide_eq_false_iff_not]
    exact ⟨p, ⟨⟨hp, hage, hrssi⟩, rfl⟩⟩

/-- Witness for C1 at a concrete map: a fresh device with nonzero RSSI is in
the scan snapshot. -/
theorem lescan_visibility_witness :
    (1 : Nat) ∈ (lescan 110 30 [(1, ⟨1, "a", -50, 100, none⟩)]).map Prod.fst :=
  (lescan_visibility 110 30 [(1, ⟨1, "a", -50, 100, none⟩)] (by decide)
    (1, ⟨1, "a", -50, 100, none⟩) (by simp)).mpr (by decide)

/-! ### Classic presence: `DBusHciInterface::detect` -/

/-- The classic presence map `m_seenClassicDevices`: MAC to last-seen
timestamp. -/
abbrev ClassicSeen := List (Nat × Nat)

/-- `Timestamp::update()` on the entry for `mac`: set its timestamp to `now`. -/
def updateSeen (s : ClassicSeen) (mac now : Nat) : ClassicSeen :=
  s.map (fun p => if p.1 = mac then (p.1, now) else p)

/-- `DBusHciInterface::detect`.  `backend` is the result of the synchronous
inquiry `BluezHciInterface::detect`; `artTimeout` is
`m_classicArtificialAvaibilityTimeout` in microseconds.  Returns the reported
status and the updated `m_seenClassicDevices` map. -/
def detect (artTimeout now mac : Nat) (backend : Bool) (s : ClassicSeen) :
    Bool × ClassicSeen :=
  match lookupA s mac with
  | none => (backend, if backend then (mac, now) :: s else s)
  | some ts =>
    if backend then (true, updateSeen s mac now)
    else if now - ts ≤ artTimeout then (true, s)
    else (false, s)

/-- C2 counterexample: with `classic_artificial_availability = 30`, a
backend-confirmed detect at time 0 is followed by a detect at time 20 with the
backend reporting undetected, which returns true (artificial availability).
The claim then requires every detect in `[20, 50]` to return true, but the
detect at time 40 (backend undetected) returns false, because the window is
measured from the last backend-confirmed detection at time 0, not from the
detect call at time 20 that returned true. -/
theorem detect_claim_counterexample :
    (detect 30 0 1 true []).1 = true ∧
    (detect 30 20 1 false (detect 30 0 1 true []).2).1 = true ∧
    (40 : Nat) ≤ 20 + 30 ∧
    (detect 30 40 1 false
      (detect 30 20 1 false (detect 30 0 1 true []).2).2).1 = false := by
  decide

/-- Key-preserving update of an association list rewrites the looked-up
value. -/
theorem lookupA_map_update {α : Type} (m : List (Nat × α)) (k : Nat)
    (f : α → α) (d : α) (h : lookupA m k = some d) :
    lookupA (m.map (fun p => if p.1 = k then (p.1, f p.2) else p)) k =
      some (f d) := by
  induction m with
  | nil => simp [lookupA] at h
  | cons hd tl ih =>
    obtain ⟨a, b⟩ := hd
    by_cases hk : a = k
    · subst hk
      simp [lookupA] at h
      simp [lookupA, h]
    · simp only [lookupA, if_neg hk] at h
      simpa [lookupA, hk] using ih h

/-- C2 amended: the artificial-availability window is measured from the
last *backend-confirmed* detection stored in `m_seenClassicDevices`.  While
`now - ts ≤ artTimeout` holds for the stored timestamp `ts`, `detect` returns
true regardless of the backend; once `artTimeout < now - ts`, `detect` returns
the backend result.  A backend-confirmed detection stores `now` as the new
timestamp, and a backend-undetected call leaves the map unchanged. -/
theorem detect_artificial_availability (artTimeout now mac : Nat) (b : Bool)
    (s : ClassicSeen) :
    (∀ ts, lookupA s mac = some ts →
      (now - ts ≤ artTimeout → (detect artTimeout now mac b s).1 = true) ∧
      (artTimeout < now - ts → (detect artTimeout now mac b s).1 = b)) ∧
    (lookupA s mac = none → (detect artTimeout now mac b s).1 = b) ∧
    (b = true → lookupA (detect artTimeout now mac b s).2 mac = some now) ∧
    (b = false → (detect artTimeout now mac b s).2 = s) := by
  refine ⟨?_, ?_, ?_, ?_⟩
  · intro ts hts
    cases b with
    | true => simp [detect, hts]
    | false =>
      simp only [detect, hts, if_false, Bool.false_eq_true]
      constructor
      · intro hle
        simp [hle]
      · intro hgt
        rw [if_neg (by omega)]
  · intro hnone
    cases b <;> simp [detect, hnone]
  · intro hb
    subst hb
    cases hts : lookupA s mac with
    | none =>
      simp only [detect, hts, if_true]
      simp [lookupA]
    | some ts =>
      simp only [detect, hts, if_true]
      exact lookupA_map_update s mac (fun _ => now) ts hts
  · intro hb
    subst hb
    cases hts : lookupA s mac with
    | none => simp [detect, hts]
    | some ts =>
      simp only [detect, hts, Bool.false_eq_true, if_false]
      split <;> rfl

/-- Witness for the amended C2: a device confirmed at time 0 is still reported
present at time 20 with the window at 30, although the backend misses it. -/
theorem detect_artificial_availability_witness :
    (detect 30 20 1 false [(1, 0)]).1 = true :=
  ((detect_artificial_availability 30 20 1 false [(1, 0)]).1 0
    (by decide)).1 (by decide)

/-! ### Eviction: `DBusHciInterface::removeUnvailableDevices` -/

/-- `DBusHciInterface::removeUnvailableDevices`: walk the device map; keep
watched records; erase an unwatched record whose `lastSeen().elapsed()`
exceeds `m_leMaxUnavailabilityTime`, also issuing
`org_bluez_adapter1_call_remove_device_sync` for it.  Returns the remaining
map together with the MACs whose D-Bus objects were requested for removal. -/
def removeUnvailableDevices (now maxUnavail : Nat) (m : DeviceMap) :
    DeviceMap × List Nat :=
  match m with
  | [] => ([], [])
  | p :: rest =>
    let r := removeUnvailableDevices now maxUnavail rest
    if p.2.isWatched then (p :: r.1, r.2)
    else if maxUnavail < now - p.2.lastSeen then (r.1, p.1 :: r.2)
    else (p :: r.1, r.2)

/-- C3: after the eviction pass, no unwatched record staler than
`maxUnavail` remains, watched records are never evicted, and the D-Bus
removal requests are exactly the evicted (unwatched, stale) records'
MACs. -/
theorem removeUnvailableDevices_spec (now maxUnavail : Nat) (m : DeviceMap) :
    (∀ p ∈ (removeUnvailableDevices now maxUnavail m).1,
      p.2.isWatched = false → now - p.2.lastSeen ≤ maxUnavail) ∧
    (∀ p ∈ m, p.2.isWatched = true →
      p ∈ (removeUnvailableDevices now maxUnavail m).1) ∧
    ((removeUnvailableDevices now maxUnavail m).2 =
      (m.filter (fun p =>
        !p.2.isWatched && decide (maxUnavail < now - p.2.lastSeen))).map
        Prod.fst) := by
  induction m with
  | nil => simp [removeUnvailableDevices]
  | cons hd tl ih =>
    obtain ⟨ih1, ih2, ih3⟩ := ih
    by_cases hw : hd.2.isWatched
    · refine ⟨?_, ?_, ?_⟩
      · intro p hp hpw
        simp only [removeUnvailableDevices, if_pos hw, List.mem_cons] at hp
        rcases hp with rfl | hp
        · rw [hw] at hpw; cases hpw
        · exact ih1 p hp hpw
      · intro p hp hpw
        simp only [removeUnvailableDevices, if_pos hw, List.mem_cons]
        rcases List.mem_cons.mp hp with rfl | hp
        · exact Or.inl rfl
        · exact Or.inr (ih2 p hp hpw)
      · simp [removeUnvailableDevices, hw, List.filter_cons, ih3]
    · by_cases hst : maxUnavail < now - hd.2.lastSeen
      · refine ⟨?_, ?_, ?_⟩
        · intro p hp hpw
          simp only [removeUnvailableDevices, if_neg hw, if_pos hst] at hp
          exact ih1 p hp hpw
        · intro p hp hpw
          simp only [removeUnvailableDevices, if_neg hw, if_pos hst]
          rcases List.mem_cons.mp hp with rfl | hp
          · rw [hpw] at hw; cases hw rfl
          · exact ih2 p hp hpw
        · simp [removeUnvailableDevices, hw, hst, List.filter_cons, ih3]
      · refine ⟨?_, ?_, ?_⟩
        · intro p hp hpw
          simp only [removeUnvailableDevices, if_neg hw, if_neg hst,
            List.mem_cons] at hp
          rcases hp with rfl | hp
          · omega
          · exact ih1 p hp hpw
        · intro p hp hpw
          simp only [removeUnvailableDevices, if_neg hw, if_neg hst,
            List.mem_cons]
          rcases List.mem_cons.mp hp with rfl | hp
          · exact Or.inl rfl
          · exact Or.inr (ih2 p hp hpw)
        · simp [removeUnvailableDevices, hw, hst, List.filter_cons, ih3]

/-- Witness for C3: a watched stale record survives the pass while an
unwatched stale record is evicted and reported for D-Bus removal. -/
theorem removeUnvailableDevices_spec_witness :
    ((1, BleDevice.mk 1 "w" (-40) 0 (some (5, 7))) ∈
      (removeUnvailableDevices 100 10
        [(1, BleDevice.mk 1 "w" (-40) 0 (some (5, 7))),
         (2, BleDevice.mk 2 "s" (-40) 0 none)]).1) ∧
    (removeUnvailableDevices 100 10
      [(1, BleDevice.mk 1 "w" (-40) 0 (some (5, 7))),
       (2, BleDevice.mk 2 "s" (-40) 0 none)]).2 = [2] :=
  ⟨(removeUnvailableDevices_spec 100 10
      [(1, BleDevice.mk 1 "w" (-40) 0 (some (5, 7))),
       (2, BleDevice.mk 2 "s" (-40) 0 none)]).2.1
      (1, BleDevice.mk 1 "w" (-40) 0 (some (5, 7))) (by simp) (by decide),
   by
    have h := (removeUnvailableDevices_spec 100 10
      [(1, BleDevice.mk 1 "w" (-40) 0 (some (5, 7))),
       (2, BleDevice.mk 2 "s" (-40) 0 none)]).2.2
    rw [h]
    decide⟩

/-! ### `DBusHciInterface::connect` -/

/-- `GERROR_IN_PROGRESS = 36` from the source. -/
def GERROR_IN_PROGRESS : Nat := 36

/-- Outcome of `DBusHciInterface::connect`: a `DBusHciConnection` handle, a
`NotFoundException`, or an `IOException` from `throwErrorIfAny`. -/
inductive ConnectOutcome
  | handle
  | errNotFound
  | ioFailure
deriving DecidableEq

/-- `DBusHciInterface::connect`.  `connected` is the live D-Bus `Connected`
property of the device; `backendError` is the `GError` (by code) produced by
`org_bluez_device1_call_connect_sync`, `none` meaning success.
`throwErrorIfAny` swallows error code `GERROR_IN_PROGRESS`. -/
def connect (m : DeviceMap) (mac : Nat) (connected : Bool)
    (backendError : Option Nat) : ConnectOutcome :=
  match lookupA m mac with
  | none => .errNotFound
  | some _ =>
    if connected then .handle
    else
      match backendError with
      | none => .handle
      | some code =>
        if code = GERROR_IN_PROGRESS then .handle else .ioFailure

/-- C7: an unknown MAC fails with `NotFound`; a backend error fails with
`IO`, except the D-Bus in-progress code 36, which is treated as success and
yields a handle. -/
theorem connect_error_spec (m : DeviceMap) (mac : Nat) (connected : Bool)
    (backendError : Option Nat) :
    (lookupA m mac = none →
      connect m mac connected backendError = .errNotFound) ∧
    (∀ d, lookupA m mac = some d →
      (backendError = some GERROR_IN_PROGRESS →
        connect m mac connected backendError = .handle) ∧
      (backendError = none → connect m mac connected backendError = .handle) ∧
      (∀ code, backendError = some code → code ≠ GERROR_IN_PROGRESS →
        connected = false →
        connect m mac connected backendError = .ioFailure)) := by
  refine ⟨fun h => by simp [connect, h], fun d hd => ⟨?_, ?_, ?_⟩⟩
  · intro hbe
    subst hbe
    cases connected <;> simp [connect, hd, GERROR_IN_PROGRESS]
  · intro hbe
    subst hbe
    cases connected <;> simp [connect, hd]
  · intro code hbe hcode hconn
    subst hbe
    subst hconn
    simp [connect, hd, hcode]

/-- Witness for C7: with an empty device map every connect attempt reports
`NotFound`, and on a known device the in-progress error code 36 still yields
a handle. -/
theorem connect_error_spec_witness :
    connect [] 1 false none = ConnectOutcome.errNotFound ∧
    connect [(1, BleDevice.mk 1 "a" (-40) 0 none)] 1 false
      (some 36) = ConnectOutcome.handle :=
  ⟨(connect_error_spec [] 1 false none).1 rfl,
   ((connect_error_spec [(1, BleDevice.mk 1 "a" (-40) 0 none)] 1 false
      (some 36)).2 (BleDevice.mk 1 "a" (-40) 0 none) rfl).1 rfl⟩

/-! ### `DBusHciInterface::watch` / `unwatch` -/

/-- Error raised by `DBusHciInterface::watch`. -/
inductive WatchErr
  | notFound
  | ioFailure
deriving DecidableEq

/-- `DBusHciInterface::watch`: unknown MAC throws `NotFound`; an
already-watched record returns immediately; otherwise a manufacturer-data
signal subscription is installed (`newHandle` is the `g_signal_connect`
result, 0 meaning failure, `cb` the callback). -/
def watch (m : DeviceMap) (mac newHandle cb : Nat) :
    Except WatchErr DeviceMap :=
  match lookupA m mac with
  | none => .error .notFound
  | some d =>
    if d.isWatched then .ok m
    else if newHandle = 0 then .error .ioFailure
    else .ok (m.map (fun p =>
      if p.1 = mac then (p.1, { p.2 with watchSub := some (newHandle, cb) })
      else p))

/-- C8: `watch` on an already-watched device is a no-op: it succeeds and
returns the device map unchanged, so every record's existing subscription
(handle and callback) is untouched. -/
theorem watch_idempotent (m : DeviceMap) (mac newHandle cb : Nat) :
    ∀ d, lookupA m mac = some d → d.isWatched = true →
      watch m mac newHandle cb = .ok m := by
  intro d hd hw
  simp [watch, hd, hw]

/-- Witness for C8: watching a watched record returns the map unchanged. -/
theorem watch_idempotent_witness :
    watch [(1, BleDevice.mk 1 "a" (-40) 0 (some (5, 7)))] 1 9 9 =
      .ok [(1, BleDevice.mk 1 "a" (-40) 0 (some (5, 7)))] :=
  watch_idempotent [(1, BleDevice.mk 1 "a" (-40) 0 (some (5, 7)))] 1 9 9
    (BleDevice.mk 1 "a" (-40) 0 (some (5, 7))) rfl rfl

/-- `DBusHciInterface::unwatch`: unknown or unwatched MAC returns without
any change; a watched record has its subscription removed
(`Device::unwatch` plus `g_signal_handler_disconnect`). -/
def unwatch (m : DeviceMap) (mac : Nat) : DeviceMap :=
  match lookupA m mac with
  | none => m
  | some d =>
    if !d.isWatched then m
    else m.map (fun p =>
      if p.1 = mac then (p.1, { p.2 with watchSub := none }) else p)

/-- C10: `unwatch` on an unknown or unwatched MAC leaves the device map
(and so every record's watch state) unchanged; records under other MACs are
never touched; and on a watched record exactly the subscription is
removed. -/
theorem unwatch_frame (m : DeviceMap) (mac : Nat) :
    (lookupA m mac = none → unwatch m mac = m) ∧
    (∀ d, lookupA m mac = some d → d.isWatched = false →
      unwatch m mac = m) ∧
    (∀ p ∈ m, p.1 ≠ mac → p ∈ unwatch m mac) ∧
    (∀ d, lookupA m mac = some d → d.isWatched = true →
      lookupA (unwatch m mac) mac = some { d with watchSub := none }) := by
  refine ⟨fun h => by simp [unwatch, h], ?_, ?_, ?_⟩
  · intro d hd hw
    simp [unwatch, hd, hw]
  · intro p hp hne
    unfold unwatch
    cases hd : lookupA m mac with
    | none => exact hp
    | some d =>
      by_cases hw : d.isWatched
      · simp only [hw, Bool.not_true, Bool.false_eq_true, if_false]
        exact List.mem_map.mpr ⟨p, hp, by simp [hne]⟩
      · simp [hw, hp]
  · intro d hd hw
    simp only [unwatch, hd, hw, Bool.not_true, Bool.false_eq_true, if_false]
    exact lookupA_map_update m mac (fun b => { b with watchSub := none }) d hd

/-- Witness for C10: unwatching an unknown MAC and an unwatched record both
leave the map unchanged, and unwatching a watched record clears exactly its
subscription. -/
theorem unwatch_frame_witness :
    unwatch [(1, BleDevice.mk 1 "a" (-40) 0 none)] 2 =
      [(1, BleDevice.mk 1 "a" (-40) 0 none)] ∧
    unwatch [(1, BleDevice.mk 1 "a" (-40) 0 none)] 1 =
      [(1, BleDevice.mk 1 "a" (-40) 0 none)] ∧
    lookupA (unwatch [(1, BleDevice.mk 1 "a" (-40) 0 (some (5, 7)))] 1) 1 =
      some (BleDevice.mk 1 "a" (-40) 0 none) :=
  ⟨(unwatch_frame [(1, BleDevice.mk 1 "a" (-40) 0 none)] 2).1 rfl,
   (unwatch_frame [(1, BleDevice.mk 1 "a" (-40) 0 none)] 1).2.1
     (BleDevice.mk 1 "a" (-40) 0 none) rfl rfl,
   (unwatch_frame [(1, BleDevice.mk 1 "a" (-40) 0 (some (5, 7)))] 1).2.2.2
     (BleDevice.mk 1 "a" (-40) 0 (some (5, 7))) rfl rfl⟩

/-! ### Virtual device manager: `VirtualDeviceManager` -/

/-- A module's configured reaction.  The manager's code only ever compares a
reaction against `VirtualModule::REACTION_NONE`, so the other configured
reactions are collapsed into one constructor. -/
inductive Reaction
  | rNone
  | rOther
deriving DecidableEq

/-- The part of `VirtualModule` that `doSetValueCommand` inspects. -/
structure VirtualModule where
  moduleID : Nat
  reaction : Reaction
deriving DecidableEq

/-- A `VirtualDevice` as seen by the manager's command handlers.  Modelled
from the spec: `VirtualDevice::modifyValue` (the driver's `modify_value`,
whose body is outside the provided sources) "must succeed atomically or
raise IllegalState"; it is abstracted by the boolean-valued `modifyOk`. -/
structure VirtualDevice where
  modules : List VirtualModule
  modifyOk : Nat → Int → Bool

/-- Error raised by `VirtualDeviceManager::doSetValueCommand`:
`NotFoundException`, `InvalidAccessException` or `IllegalStateException`. -/
inductive SetValueErr
  | notFound
  | invalidAccess
  | illegalState
deriving DecidableEq

/-- `VirtualDeviceManager::doSetValueCommand`.  Returns the raised error (if
any) together with whether `modifyValue` was invoked. -/
def doSetValueCommand (devs : List (Nat × VirtualDevice))
    (devId moduleId : Nat) (value : Int) : Option SetValueErr × Bool :=
  match lookupA devs devId with
  | none => (some .notFound, false)
  | some dev =>
    if dev.modules.any (fun mo =>
        decide (mo.moduleID = moduleId) && decide (mo.reaction = Reaction.rNone)) then
      (some .invalidAccess, false)
    else if dev.modifyOk moduleId value then (none, true)
    else (some .illegalState, true)

/-- C4: an unknown device id raises `NotFound`; a known device whose targeted
module has reaction `None` is rejected with `InvalidAccess` and
`modifyValue` is not called; otherwise `modifyValue` is called and its
failure raises `IllegalState`. -/
theorem doSetValueCommand_spec (devs : List (Nat × VirtualDevice))
    (devId moduleId : Nat) (value : Int) :
    (lookupA devs devId = none →
      doSetValueCommand devs devId moduleId value = (some .notFound, false)) ∧
    (∀ dev, lookupA devs devId = some dev →
      ((∃ mo ∈ dev.modules, mo.moduleID = moduleId ∧
          mo.reaction = Reaction.rNone) →
        doSetValueCommand devs devId moduleId value =
          (some .invalidAccess, false)) ∧
      ((∀ mo ∈ dev.modules, mo.moduleID = moduleId →
          mo.reaction ≠ Reaction.rNone) →
        (doSetValueCommand devs devId moduleId value).2 = true ∧
        (dev.modifyOk moduleId value = true →
          (doSetValueCommand devs devId moduleId value).1 = none) ∧
        (dev.modifyOk moduleId value = false →
          (doSetValueCommand devs devId moduleId value).1 =
            some .illegalState))) := by
  refine ⟨fun h => by simp [doSetValueCommand, h], fun dev hdev => ⟨?_, ?_⟩⟩
  · intro hex
    have hany : dev.modules.any (fun mo =>
        decide (mo.moduleID = moduleId) &&
        decide (mo.reaction = Reaction.rNone)) = true := by
      rw [List.any_eq_true]
      obtain ⟨mo, hmo, h1, h2⟩ := hex
      exact ⟨mo, hmo, by simp [h1, h2]⟩
    simp [doSetValueCommand, hdev, hany]
  · intro hall
    have hany : dev.modules.any (fun mo =>
        decide (mo.moduleID = moduleId) &&
        decide (mo.reaction = Reaction.rNone)) = false := by
      rw [Bool.eq_false_iff]
      intro hcontra
      rw [List.any_eq_true] at hcontra
      obtain ⟨mo, hmo, hmoc⟩ := hcontra
      simp only [Bool.and_eq_true, decide_eq_true_eq] at hmoc
      exact hall mo hmo hmoc.1 hmoc.2
    cases hok : dev.modifyOk moduleId value <;>
      simp [doSetValueCommand, hdev, hany, hok]

/-- Witness for C4: setting a value on a module whose reaction is `None` is
rejected with `InvalidAccess` without calling `modifyValue`. -/
theorem doSetValueCommand_spec_witness :
    doSetValueCommand
      [(5, VirtualDevice.mk [VirtualModule.mk 0 Reaction.rNone]
        (fun _ _ => true))] 5 0 7 =
      (some SetValueErr.invalidAccess, false) :=
  ((doSetValueCommand_spec
      [(5, VirtualDevice.mk [VirtualModule.mk 0 Reaction.rNone]
        (fun _ _ => true))] 5 0 7).2
    (VirtualDevice.mk [VirtualModule.mk 0 Reaction.rNone] (fun _ _ => true))
    rfl).1 ⟨VirtualModule.mk 0 Reaction.rNone, by simp, rfl, rfl⟩

/-! ### Pairing state and polling schedule -/

/-- Insert an id into a set represented as a duplicate-free list. -/
def insertId (s : List Nat) (x : Nat) : List Nat :=
  if x ∈ s then s else x :: s

/-- Remove an id from a set represented as a list. -/
def removeId (s : List Nat) (x : Nat) : List Nat :=
  s.filter (fun y => decide (y ≠ x))

/-- Modelled from the spec: the `DeviceCache` pairing flags and the
`PollingKeeper` schedule consumed by `VirtualDeviceManager` (both
collaborators' bodies are outside the provided sources).  `markPaired` /
`markUnpaired` flip membership in `pairedCache`; `schedule` / `cancel` flip
membership in `scheduled`. -/
structure VdevMgrState where
  pairedCache : List Nat
  scheduled : List Nat
deriving DecidableEq

/-- Error raised by `VirtualDeviceManager::doDeviceAcceptCommand`. -/
inductive AcceptErr
  | notFound
deriving DecidableEq

/-- `VirtualDeviceManager::doDeviceAcceptCommand`: unknown id throws
`NotFound`; otherwise (with at most a warning for an already-paired device)
the device is marked paired and scheduled for polling. -/
def doDeviceAcceptCommand (devs : List Nat) (id : Nat) (st : VdevMgrState) :
    Option AcceptErr × VdevMgrState :=
  if id ∈ devs then
    (none, { pairedCache := insertId st.pairedCache id,
             scheduled := insertId st.scheduled id })
  else
    (some .notFound, st)

/-- `VirtualDeviceManager::doUnpairCommand`: unknown id only logs a warning;
otherwise the device is marked unpaired and its polling cancelled. -/
def doUnpairCommand (devs : List Nat) (id : Nat) (st : VdevMgrState) :
    Option AcceptErr × VdevMgrState :=
  if id ∈ devs then
    (none, { pairedCache := removeId st.pairedCache id,
             scheduled := removeId st.scheduled id })
  else
    (none, st)

/-- Membership in `insertId`. -/
theorem mem_insertId (s : List Nat) (x d : Nat) :
    d ∈ insertId s x ↔ d = x ∨ d ∈ s := by
  unfold insertId
  split <;> rename_i hx
  · constructor
    · exact Or.inr
    · rintro (rfl | h) <;> assumption
  · simp [List.mem_cons]

/-- Membership in `removeId`. -/
theorem mem_removeId (s : List Nat) (x d : Nat) :
    d ∈ removeId s x ↔ d ∈ s ∧ d ≠ x := by
  simp [removeId]

/-- C5: accepting an unknown device raises `NotFound` and changes nothing;
accepting a known device marks it paired and scheduled, and a repeated
accept yields the same final state without error; unpairing a known device
marks it unpaired and cancels its polling; unpairing an unknown device
raises no error and changes nothing. -/
theorem accept_unpair_spec (devs : List Nat) (id : Nat) (st : VdevMgrState) :
    (id ∉ devs →
      doDeviceAcceptCommand devs id st = (some .notFound, st)) ∧
    (id ∈ devs →
      (doDeviceAcceptCommand devs id st).1 = none ∧
      id ∈ (doDeviceAcceptCommand devs id st).2.pairedCache ∧
      id ∈ (doDeviceAcceptCommand devs id st).2.scheduled ∧
      doDeviceAcceptCommand devs id (doDeviceAcceptCommand devs id st).2 =
        doDeviceAcceptCommand devs id st) ∧
    (id ∈ devs →
      (doUnpairCommand devs id st).1 = none ∧
      id ∉ (doUnpairCommand devs id st).2.pairedCache ∧
      id ∉ (doUnpairCommand devs id st).2.scheduled) ∧
    (id ∉ devs → doUnpairCommand devs id st = (none, st)) := by
  refine ⟨fun h => by simp [doDeviceAcceptCommand, h], fun h => ?_,
    fun h => ?_, fun h => by simp [doUnpairCommand, h]⟩
  · refine ⟨by simp [doDeviceAcceptCommand, h], ?_, ?_, ?_⟩
    · simp [doDeviceAcceptCommand, h, mem_insertId]
    · simp [doDeviceAcceptCommand, h, mem_insertId]
    · have hins : ∀ s : List Nat, insertId (insertId s id) id = insertId s id := by
        intro s
        have h2 : id ∈ insertId s id := (mem_insertId s id id).mpr (Or.inl rfl)
        rw [insertId, if_pos h2]
      simp [doDeviceAcceptCommand, h, hins]
  · refine ⟨by simp [doUnpairCommand, h], ?_, ?_⟩
    · simp [doUnpairCommand, h, mem_removeId]
    · simp [doUnpairCommand, h, mem_removeId]

/-- Witness for C5: accepting a registered device pairs and schedules it;
accepting it again is idempotent; unpairing an unknown id is harmless. -/
theorem accept_unpair_spec_witness :
    (doDeviceAcceptCommand [4] 4 (VdevMgrState.mk [] [])).1 = none ∧
    (4 ∈ (doDeviceAcceptCommand [4] 4 (VdevMgrState.mk [] [])).2.scheduled) ∧
    doUnpairCommand [4] 9 (VdevMgrState.mk [] []) =
      (none, VdevMgrState.mk [] []) :=
  ⟨((accept_unpair_spec [4] 4 (VdevMgrState.mk [] [])).2.1 (by decide)).1,
   ((accept_unpair_spec [4] 4 (VdevMgrState.mk [] [])).2.1 (by decide)).2.2.1,
   (accept_unpair_spec [4] 9 (VdevMgrState.mk [] [])).2.2.2 (by decide)⟩

/-! ### `VirtualDeviceManager::handleRemoteStatus` -/

/-- One step of `VirtualDeviceManager::scheduleAllEntries`: a paired device
is scheduled, an unpaired one cancelled. -/
def schedStep (pairedCache acc : List Nat) (d : Nat) : List Nat :=
  if d ∈ pairedCache then insertId acc d else removeId acc d

/-- `VirtualDeviceManager::scheduleAllEntries`: walk the device map and
reconcile the polling schedule with the pairing cache. -/
def scheduleAllEntries (devs : List Nat) (st : VdevMgrState) : VdevMgrState :=
  { st with scheduled := devs.foldl (schedStep st.pairedCache) st.scheduled }

/-- `VirtualDeviceManager::handleRemoteStatus`.  Modelled from the spec: the
base `DeviceManager::handleRemoteStatus` (outside the provided sources)
reconciles the pairing cache with the server's batch snapshot
`remotePaired`; the override then runs `scheduleAllEntries`. -/
def handleRemoteStatus (devs remotePaired : List Nat) (st : VdevMgrState) :
    VdevMgrState :=
  scheduleAllEntries devs { st with pairedCache := remotePaired }

/-- A fold of `schedStep` leaves alone the ids it does not process. -/
theorem foldl_schedStep_not_mem (pairedCache : List Nat) (devs : List Nat)
    (acc : List Nat) (d : Nat) (h : d ∉ devs) :
    (d ∈ devs.foldl (schedStep pairedCache) acc ↔ d ∈ acc) := by
  induction devs generalizing acc with
  | nil => simp
  | cons x rest ih =>
    have hdx : d ≠ x := fun hc => h (hc ▸ List.mem_cons_self x rest)
    have hdr : d ∉ rest := fun hc => h (List.mem_cons_of_mem x hc)
    rw [List.foldl_cons, ih _ hdr]
    unfold schedStep
    split
    · rw [mem_insertId]
      simp [hdx]
    · rw [mem_removeId]
      simp [hdx]

/-- After a fold of `schedStep`, a processed id is scheduled iff it is
paired. -/
theorem foldl_schedStep_mem (pairedCache : List Nat) (devs : List Nat)
    (acc : List Nat) (d : Nat) (h : d ∈ devs) :
    (d ∈ devs.foldl (schedStep pairedCache) acc ↔ d ∈ pairedCache) := by
  induction devs generalizing acc with
  | nil => cases h
  | cons x rest ih =>
    rw [List.foldl_cons]
    by_cases hdr : d ∈ rest
    · exact ih _ hdr
    · have hdx : d = x := by
        rcases List.mem_cons.mp h with rfl | hc
        · rfl
        · exact absurd hc hdr
      subst hdx
      rw [foldl_schedStep_not_mem pairedCache rest _ d hdr]
      unfold schedStep
      split <;> rename_i hpc
      · rw [mem_insertId]
        simp [hpc]
      · rw [mem_removeId]
        simp [hpc]

/-- C6: after `handleRemoteStatus`, every device of the manager's map is
scheduled for polling iff it is paired in the cache. -/
theorem handleRemoteStatus_schedule_coherence (devs remotePaired : List Nat)
    (st : VdevMgrState) :
    ∀ d ∈ devs,
      (d ∈ (handleRemoteStatus devs remotePaired st).scheduled ↔
       d ∈ (handleRemoteStatus devs remotePaired st).pairedCache) := by
  intro d hd
  unfold handleRemoteStatus scheduleAllEntries
  exact foldl_schedStep_mem remotePaired devs st.scheduled d hd

/-- Witness for C6: a device dropped from the remote paired set has its
schedule cancelled, so scheduled membership matches pairing. -/
theorem handleRemoteStatus_schedule_coherence_witness :
    ((1 : Nat) ∈ (handleRemoteStatus [1, 2] [2] (VdevMgrState.mk [1] [1])).scheduled ↔
     (1 : Nat) ∈ (handleRemoteStatus [1, 2] [2] (VdevMgrState.mk [1] [1])).pairedCache) :=
  handleRemoteStatus_schedule_coherence [1, 2] [2] (VdevMgrState.mk [1] [1]) 1
    (by decide)

/-! ### `VirtualDeviceManager::parseDevice` / `registerDevice` -/

/-- A `DeviceID`: a 1-byte driver-family code `pfx` and a 7-byte
`ident`; equality is by the full 64 bits. -/
structure DevID where
  pfx : Nat
  ident : Nat
deriving DecidableEq

/-- The numeric value of `DevicePrefix::PREFIX_VIRTUAL_DEVICE`.  Its
definition lies outside the provided sources; the code only ever compares a
device id's family code against it, so any fixed value is faithful. -/
def PREFIX_VIRTUAL_DEVICE : Nat := 0xa0

/-- The id handling of `VirtualDeviceManager::parseDevice`: the device's own
id is forced to the virtual family (`device->setID(DeviceID(PREFIX_VIRTUAL_DEVICE,
id.ident()))` when the configured family code differs), while the
`deviceCache()->markPaired/markUnpaired` call uses the configured `id`
unchanged. -/
structure ParsedIds where
  registeredId : DevID
  cacheId : DevID
  cachePaired : Bool
deriving DecidableEq

/-- `VirtualDeviceManager::parseDevice`, restricted to the ids it produces:
`rawId` is the parsed `device_id` from the configuration entry and
`pairedFlag` the configured `paired` value. -/
def parseDeviceIds (rawId : DevID) (pairedFlag : Bool) : ParsedIds :=
  { registeredId :=
      if rawId.pfx ≠ PREFIX_VIRTUAL_DEVICE then
        DevID.mk PREFIX_VIRTUAL_DEVICE rawId.ident
      else rawId,
    cacheId := rawId,
    cachePaired := pairedFlag }

/-- `VirtualDeviceManager::registerDevice`: emplace the device into
`m_virtualDevicesMap` under its (possibly corrected) id; a duplicate id
raises `ExistsException` (`none` here). -/
def registerDevice (m : List DevID) (id : DevID) : Option (List DevID) :=
  if id ∈ m then none else some (id :: m)

/-- C9: a configuration entry whose `device_id` carries a non-virtual family
code is registered under the corrected id (virtual family, same 7-byte
identifier), while the pairing mark sent to the `DeviceCache` uses the
original uncorrected id, so the pairing key and the registered key
differ. -/
theorem parseDevice_id_mismatch (rawId : DevID) (pairedFlag : Bool)
    (m : List DevID) (h : rawId.pfx ≠ PREFIX_VIRTUAL_DEVICE) :
    (parseDeviceIds rawId pairedFlag).registeredId =
      DevID.mk PREFIX_VIRTUAL_DEVICE rawId.ident ∧
    (parseDeviceIds rawId pairedFlag).cacheId = rawId ∧
    (parseDeviceIds rawId pairedFlag).registeredId ≠
      (parseDeviceIds rawId pairedFlag).cacheId ∧
    (∀ m', registerDevice m (parseDeviceIds rawId pairedFlag).registeredId =
        some m' →
      (parseDeviceIds rawId pairedFlag).registeredId ∈ m') := by
  refine ⟨by simp [parseDeviceIds, h], rfl, ?_, ?_⟩
  · simp only [parseDeviceIds, if_pos h]
    intro hc
    exact h (congrArg DevID.pfx hc).symm
  · intro m' hm'
    unfold registerDevice at hm'
    split at hm'
    · cases hm'
    · cases hm'
      exact List.mem_cons_self _ _

/-- Witness for C9: a configured id with family code 0 is registered under
the virtual family while the cache key keeps family code 0. -/
theorem parseDevice_id_mismatch_witness :
    (parseDeviceIds (DevID.mk 0 7) true).registeredId =
      DevID.mk PREFIX_VIRTUAL_DEVICE 7 ∧
    (parseDeviceIds (DevID.mk 0 7) true).registeredId ≠
      (parseDeviceIds (DevID.mk 0 7) true).cacheId :=
  ⟨(parseDevice_id_mismatch (DevID.mk 0 7) true [] (by decide)).1,
   (parseDevice_id_mismatch (DevID.mk 0 7) true [] (by decide)).2.2.1⟩

end Gateway
